import Mathlib

/-!
Shallow embedding of `src/main.py` (a Telegram image-generation bot).

The Python program is event-driven: for every inbound message the host
runtime invokes one of the handlers `text_handler`, `photo_handler`,
which delegate to the orchestrator `handle_generation`.  External
collaborators (the Telegram bot API, the GenAI client) are modelled by
an environment `Env` that fixes the outcome of each external call of a
single invocation; the invocation itself is embedded as a pure function
returning the new process memory, the ordered list of external calls it
attempted (with their outcomes), and whether an exception escaped the
handler.

Byte buffers are modelled as lists of naturals; Python string methods
used by the source (`str.strip`, `str.lower`, `str.startswith`) are
embedded as `py_strip`, `py_lower`, `py_startswith`, faithful to
Python's semantics on the character ranges the program uses (ASCII and
the basic Cyrillic block).
-/

/-- A byte buffer (Python `bytes`), one natural per byte. -/
abbrev Img := List Nat

/-- `LAST_IMAGE_BY_CHAT : dict[int, bytes]` — per-chat image memory. -/
abbrev Memory := Nat → Option Img

/-- The empty `dict` the process starts with. -/
def emptyMemory : Memory := fun _ => none

/-- `LAST_IMAGE_BY_CHAT[chat_id] = img` — dictionary update. -/
def memInsert (m : Memory) (chat : Nat) (b : Img) : Memory :=
  fun c => if c = chat then some b else m c

/-- Python truthiness of an optional string (`os.getenv` result):
`None` and `""` are falsy, everything else truthy. -/
def pyTruthy : Option String → Bool
  | none => false
  | some s => !(s.isEmpty)

/-- Characters stripped by Python `str.strip()` (the whitespace the
program can meet: space, tab, newline, carriage return, vertical tab,
form feed). -/
def pyIsSpace (c : Char) : Bool :=
  c = ' ' || c = '\t' || c = '\n' || c = '\r' || c = '\x0b' || c = '\x0c'

/-- Python `s.strip()`. -/
def py_strip (s : String) : String :=
  ⟨((s.data.dropWhile pyIsSpace).reverse.dropWhile pyIsSpace).reverse⟩

/-- Python `str.lower()` on one character, restricted to the ranges the
program uses: ASCII letters and the basic Cyrillic block (`А`–`Я` maps
down by 32 code points, `Ё` maps to `ё`). -/
def pyLowerChar (c : Char) : Char :=
  if 0x41 ≤ c.toNat ∧ c.toNat ≤ 0x5A then Char.ofNat (c.toNat + 32)
  else if 0x410 ≤ c.toNat ∧ c.toNat ≤ 0x42F then Char.ofNat (c.toNat + 32)
  else if c.toNat = 0x401 then Char.ofNat 0x451
  else c

/-- Python `s.lower()`. -/
def py_lower (s : String) : String := ⟨s.data.map pyLowerChar⟩

/-- Python `s.startswith(pre)`. -/
def py_startswith (s pre : String) : Bool := pre.data.isPrefixOf s.data

/-- One external call attempted by a handler invocation, with its
outcome.  Gateway calls record the result the model call produced
(`none` = the call raised). -/
inductive Effect where
  | sendMessage (chat : Nat) (text : String) (ok : Bool)
  | editText (text : String) (ok : Bool)
  | deleteMsg (ok : Bool)
  | sendPhoto (chat : Nat) (img : Img) (ok : Bool)
  | sendPhotoOwner (owner : String) (img : Img) (ok : Bool)
  | gatewayText (prompt : String) (res : Option Img)
  | gatewayImage (prompt : String) (base : Img) (res : Option Img)
deriving DecidableEq, Repr

/-- How a handler invocation ended: normally, or with a Python
exception escaping the handler. -/
inductive RunExit where
  | ok
  | raised (source : String)
deriving DecidableEq, Repr

/-- Result of one handler invocation: the memory afterwards, the
ordered external calls attempted, and how the invocation ended. -/
structure RunResult where
  mem : Memory
  trace : List Effect
  exit : RunExit

/-- Outcomes of the external collaborators for one invocation:
one flag per call site of the handler, plus the process configuration
`OWNER_CHAT_ID` and the gateway outcome (`Except.error e` models the
`RuntimeError` message `e`). -/
structure Env where
  sendOk : Bool
  gen : Except String Img
  photoOk : Bool
  editOk : Bool
  deleteOk : Bool
  owner : Option String
  ownerOk : Bool
  downloadOk : Bool

/-- The placeholder text sent by `handle_generation` (step 1). -/
def placeholderText (prompt : String) : String :=
  "Генерирую картинку через Zenmux + Gemini 3 Pro…\n\nЗапрос:\n" ++ prompt

/-- The error text `handle_generation` edits into the placeholder when
generation fails. -/
def genFailText (e : String) : String :=
  "Не удалось сгенерировать картинку 😔\nОшибка: " ++ e

/-- The text edited into the placeholder when the photo could not be
delivered to the chat. -/
def notDeliveredText : String :=
  "Картинка сгенерирована, но не удалось отправить её в чат."

/-- The reply sent when an edit is requested but no image is stored. -/
def nothingToEditText : String :=
  "Мне нечего редактировать — у меня пока нет сохранённого изображения.\nСначала сгенерируй или пришли картинку 🙂"

/-- `handle_generation(update, context, prompt, base_image_bytes)` from
`src/main.py`, lines 218–286.  Mirrors the source's control flow:
the placeholder send is *not* inside a `try`, so its failure raises;
the gateway call is inside `try/except` and on failure the placeholder
is edited and the handler returns without touching memory; on success
memory is updated *before* delivery; a delivery failure edits the
placeholder and returns before the owner block; `wait.delete()` is
swallowed; the owner send is attempted only when `OWNER_CHAT_ID` is
truthy and its failure is only logged. -/
def handle_generation (env : Env) (chat_id : Nat) (prompt : String)
    (base_image_bytes : Option Img) (mem : Memory) : RunResult :=
  let waitEff := Effect.sendMessage chat_id (placeholderText prompt) env.sendOk
  if env.sendOk then
    let callEff := match base_image_bytes with
      | none => Effect.gatewayText prompt env.gen.toOption
      | some b => Effect.gatewayImage prompt b env.gen.toOption
    match env.gen with
    | Except.error e =>
        { mem := mem
          trace := [waitEff, callEff, Effect.editText (genFailText e) env.editOk]
          exit := if env.editOk then RunExit.ok else RunExit.raised "edit_text" }
    | Except.ok img =>
        let mem' := memInsert mem chat_id img
        if env.photoOk then
          let delivered := [waitEff, callEff, Effect.sendPhoto chat_id img true,
            Effect.deleteMsg env.deleteOk]
          if pyTruthy env.owner then
            { mem := mem'
              trace := delivered ++
                [Effect.sendPhotoOwner (env.owner.getD "") img env.ownerOk]
              exit := RunExit.ok }
          else
            { mem := mem', trace := delivered, exit := RunExit.ok }
        else
          { mem := mem'
            trace := [waitEff, callEff, Effect.sendPhoto chat_id img false,
              Effect.editText notDeliveredText env.editOk]
            exit := if env.editOk then RunExit.ok else RunExit.raised "edit_text" }
  else
    { mem := mem, trace := [waitEff], exit := RunExit.raised "send_message" }

/-- The fixed edit-phrase prefixes of `text_handler` (lines 170–174). -/
def edit_phrase_list : List String :=
  ["отредактируй", "измени картинку", "сделай вариацию"]

/-- `is_edit_command` from `text_handler`: the lowered text starts with
one of the fixed prefixes. -/
def is_edit_command (lower : String) : Bool :=
  edit_phrase_list.any (fun pre => py_startswith lower pre)

/-- The three-way intent classification of `text_handler`. -/
inductive Intent where
  | editLastImage
  | editNoImage
  | fresh
deriving DecidableEq, Repr

/-- The classification `text_handler` performs on the trimmed,
lowercased text, given whether the chat has a stored image. -/
def classify (lower : String) (has_last_image : Bool) : Intent :=
  if is_edit_command lower && has_last_image then Intent.editLastImage
  else if is_edit_command lower && !has_last_image then Intent.editNoImage
  else Intent.fresh

/-- `text_handler(update, context)` from `src/main.py`, lines 159–186.
An empty text is filtered by the `not update.message.text` guard.  The
trimmed text is the prompt; its lowering drives the edit-command test;
an edit command with a stored image dispatches image-conditioned
generation on the stored bytes, an edit command without one replies
with `nothingToEditText`, anything else dispatches fresh generation. -/
def text_handler (env : Env) (chat_id : Nat) (text : String) (mem : Memory) :
    RunResult :=
  if text = "" then { mem := mem, trace := [], exit := RunExit.ok }
  else
    let prompt := py_strip text
    let lower := py_lower prompt
    let has_last_image := (mem chat_id).isSome
    let is_edit := is_edit_command lower
    if is_edit && has_last_image then
      handle_generation env chat_id prompt (mem chat_id) mem
    else if is_edit && !has_last_image then
      { mem := mem
        trace := [Effect.sendMessage chat_id nothingToEditText env.sendOk]
        exit := if env.sendOk then RunExit.ok else RunExit.raised "reply_text" }
    else
      handle_generation env chat_id prompt none mem

/-- The fixed default art-variation prompt of `photo_handler`. -/
def DEFAULT_VARIATION_PROMPT : String :=
  "Сделай более интересную художественную вариацию этого изображения, сохранив основную композицию."

/-- The prompt `photo_handler` passes to the orchestrator: the trimmed
caption when non-empty, the fixed default otherwise. -/
def photoPrompt (caption : Option String) : String :=
  let cap := py_strip (caption.getD "")
  if cap = "" then DEFAULT_VARIATION_PROMPT else cap

/-- `photo_handler(update, context)` from `src/main.py`, lines 189–215.
Downloading the photo (`get_file` / `download_to_memory`) is not in a
`try`, so its failure raises; otherwise the handler dispatches
image-conditioned generation on the uploaded bytes with `photoPrompt`. -/
def photo_handler (env : Env) (chat_id : Nat) (caption : Option String)
    (photo_bytes : Img) (mem : Memory) : RunResult :=
  if env.downloadOk then
    handle_generation env chat_id (photoPrompt caption) (some photo_bytes) mem
  else
    { mem := mem, trace := [], exit := RunExit.raised "download" }

/-- `ZENMUX_BASE_URL` from `src/main.py`. -/
def ZENMUX_BASE_URL : String := "https://zenmux.ai/api/vertex-ai"

/-- The constructed GenAI client (`genai.Client(...)` call of
`get_genai_client`): the arguments the source passes. -/
structure GenClient where
  api_key : String
  vertexai : Bool
  base_url : String
deriving DecidableEq, Repr

/-- `get_genai_client()` from `src/main.py`, lines 43–63, as a function
of the `ZENMUX_API_KEY` environment value and of the cached global
`_genai_client`.  Returns the client together with the new cache, or
the `RuntimeError` message.  A cached client is returned untouched; an
absent or empty key raises; otherwise the client is constructed and
cached. -/
def get_genai_client (zenmux_api_key : Option String) :
    Option GenClient → Except String (GenClient × Option GenClient)
  | some c => Except.ok (c, some c)
  | none =>
      if pyTruthy zenmux_api_key then
        let c : GenClient :=
          { api_key := zenmux_api_key.getD "", vertexai := true,
            base_url := ZENMUX_BASE_URL }
        Except.ok (c, some c)
      else
        Except.error "ZENMUX_API_KEY не задан"

/-- The environment variables `main()` and module setup read. -/
structure ProcConfig where
  telegram_token : Option String
  webhook_url : Option String
  zenmux_api_key : Option String
  owner_chat_id : Option String

/-- The startup validation performed by `main()` (`src/main.py`, lines
295–302): it checks `TELEGRAM_TOKEN` and `WEBHOOK_URL` and raises
`RuntimeError` when either is missing; nothing else is validated at
startup. -/
def main_startup (cfg : ProcConfig) : Except String Unit :=
  if !pyTruthy cfg.telegram_token then
    Except.error "TELEGRAM_TOKEN не задан"
  else if !pyTruthy cfg.webhook_url then
    Except.error "WEBHOOK_URL не задан"
  else
    Except.ok ()

/-- One part of the model response (`response.parts`): `inline_data` is
`none` when the part carries no inline binary image data (Python
truthiness of `part.inline_data`). -/
structure RPart where
  inline_data : Option Img
deriving DecidableEq, Repr

/-- The on-disk staging path `f"/tmp/zenmux_{uuid4().hex}.png"`. -/
def tmpPathFor (hexName : String) : String :=
  "/tmp/zenmux_" ++ hexName ++ ".png"

/-- The `RuntimeError` message raised when no part carries an image. -/
def noImageText : String := "API не вернул изображение (inline_data отсутствует)"

/-- `_extract_image_from_response(response)` from `src/main.py`, lines
66–82, over an explicit file system (the list of paths existing under
`/tmp`).  `enc` abstracts the `part.as_image()` → `img.save(png)` →
`open(...).read()` round trip that derives the returned bytes from the
part's inline data; `hexName` is the `uuid4().hex` drawn for this call.
The scan takes the first part whose `inline_data` is truthy, writes the
staging file, reads it back and returns; the source never removes the
staging file.  Returns the result paired with the file system after the
call. -/
def extract_image_from_response (enc : Img → Img) (hexName : String) :
    List RPart → List String → (Except String Img × List String)
  | [], fs => (Except.error noImageText, fs)
  | p :: rest, fs =>
      match p.inline_data with
      | some d => (Except.ok (enc d), fs ++ [tmpPathFor hexName])
      | none => extract_image_from_response enc hexName rest fs

/-- The first inline image payload among the response parts, in scan
order. -/
def firstInline : List RPart → Option Img
  | [] => none
  | p :: rest =>
      match p.inline_data with
      | some d => some d
      | none => firstInline rest

/-- Whether an effect is a gateway call. -/
def isGatewayCall : Effect → Bool
  | Effect.gatewayText _ _ => true
  | Effect.gatewayImage _ _ _ => true
  | _ => false

/-- Count of gateway calls in a trace. -/
def gatewayCalls : List Effect → Nat
  | [] => 0
  | e :: t => (if isGatewayCall e then 1 else 0) + gatewayCalls t

/-- Whether an effect is a photo-send attempt (to the chat or to the
owner), regardless of outcome. -/
def isPhotoAttempt : Effect → Bool
  | Effect.sendPhoto _ _ _ => true
  | Effect.sendPhotoOwner _ _ _ => true
  | _ => false

/-- Count of photo-send attempts in a trace. -/
def photoAttempts : List Effect → Nat
  | [] => 0
  | e :: t => (if isPhotoAttempt e then 1 else 0) + photoAttempts t

/-- Whether an effect is a photo-send attempt to the owner chat. -/
def isOwnerAttempt : Effect → Bool
  | Effect.sendPhotoOwner _ _ _ => true
  | _ => false

/-- Count of photo-send attempts to the owner chat in a trace. -/
def ownerAttempts : List Effect → Nat
  | [] => 0
  | e :: t => (if isOwnerAttempt e then 1 else 0) + ownerAttempts t

/-- The single status message of an invocation as the user finally sees
it: sending it puts its text up, a successful edit replaces the text, a
successful delete removes the message. -/
def stepPlaceholder (acc : Option String) : Effect → Option String
  | Effect.sendMessage _ txt true => some txt
  | Effect.editText txt true => acc.map (fun _ => txt)
  | Effect.deleteMsg true => none
  | _ => acc

/-- The final state of the status message after a trace. -/
def finalPlaceholder (t : List Effect) : Option String :=
  t.foldl stepPlaceholder none

/-- Whether an effect is a successful photo delivery to chat `chat`. -/
def isDeliveryTo (chat : Nat) : Effect → Bool
  | Effect.sendPhoto c _ true => c == chat
  | _ => false

/-- Count of photos successfully delivered to chat `chat` in a trace. -/
def photosDeliveredTo (chat : Nat) : List Effect → Nat
  | [] => 0
  | e :: t => (if isDeliveryTo chat e then 1 else 0) + photosDeliveredTo chat t

/-- How many messages chat `chat` can see after a trace: the surviving
status message plus the successfully delivered photos. -/
def userVisibleCount (chat : Nat) (t : List Effect) : Nat :=
  (finalPlaceholder t).toList.length + photosDeliveredTo chat t

/-- The image bytes a successful gateway call in the trace produced,
`none` when the trace holds no successful gateway call. -/
def successBytesOf : Effect → Option Img
  | Effect.gatewayText _ (some i) => some i
  | Effect.gatewayImage _ _ (some i) => some i
  | _ => none

/-- `firstSome a b` is `a` when `a` is `some`, else `b`. -/
def firstSome (a b : Option Img) : Option Img :=
  match a with
  | some i => some i
  | none => b

/-- The last successful gateway result of a trace (effects later in the
list win). -/
def traceGenSuccess : List Effect → Option Img
  | [] => none
  | e :: t => firstSome (traceGenSuccess t) (successBytesOf e)

/-- One inbound message dispatched by the host runtime, with the
environment fixing the outcomes of that invocation's external calls. -/
inductive Event where
  | text (env : Env) (chat : Nat) (msg : String)
  | photo (env : Env) (chat : Nat) (caption : Option String) (img : Img)

/-- The chat an event originates from. -/
def eventChat : Event → Nat
  | Event.text _ c _ => c
  | Event.photo _ c _ _ => c

/-- Dispatch one event against the current memory. -/
def stepEvent (mem : Memory) : Event → RunResult
  | Event.text env c m => text_handler env c m mem
  | Event.photo env c cap i => photo_handler env c cap i mem

/-- Run a list of inbound messages in order from a starting memory,
collecting each invocation's originating chat and trace. -/
def runEvents : Memory → List Event → Memory × List (Nat × List Effect)
  | mem, [] => (mem, [])
  | mem, e :: es =>
      let r := stepEvent mem e
      let rest := runEvents r.mem es
      (rest.1, (eventChat e, r.trace) :: rest.2)

/-- The bytes of the last successful generation for chat `chat` in a
run's collected traces (later events win). -/
def lastSuccessFor (chat : Nat) : List (Nat × List Effect) → Option Img
  | [] => none
  | (c, t) :: rest =>
      firstSome (lastSuccessFor chat rest)
        (if c = chat then traceGenSuccess t else none)

/-- An environment where every external call succeeds, generation
returns the bytes `[1, 2, 3]`, and an owner chat is configured. -/
def envAllOk : Env :=
  { sendOk := true
    gen := Except.ok [1, 2, 3]
    photoOk := true
    editOk := true
    deleteOk := true
    owner := some "42"
    ownerOk := true
    downloadOk := true }

/-- As `envAllOk`, but the placeholder `send_message` raises. -/
def envSendFail : Env := { envAllOk with sendOk := false }

/-- As `envAllOk`, but the gateway call raises `RuntimeError "boom"`. -/
def envGenFail : Env := { envAllOk with gen := Except.error "boom" }

/-- As `envAllOk`, but delivering the photo to the chat raises. -/
def envPhotoFail : Env := { envAllOk with photoOk := false }

/-- A process configuration with both startup-checked variables set and
`ZENMUX_API_KEY` absent. -/
def cfgNoKey : ProcConfig :=
  { telegram_token := some "tok"
    webhook_url := some "https://bot.example"
    zenmux_api_key := none
    owner_chat_id := none }

/- ----------------------------------------------------------------- -/
/- Helper lemmas                                                      -/
/- ----------------------------------------------------------------- -/

theorem firstSome_none_right (a : Option Img) : firstSome a none = a := by
  cases a <;> rfl

theorem firstSome_assoc (a b c : Option Img) :
    firstSome a (firstSome b c) = firstSome (firstSome a b) c := by
  cases a <;> cases b <;> rfl

/-- `handle_generation` performs exactly one gateway call when the
placeholder send succeeds, and none when it raises. -/
theorem hg_calls (env : Env) (chat : Nat) (p : String) (b : Option Img) (mem : Memory) :
    gatewayCalls (handle_generation env chat p b mem).trace
      = if env.sendOk then 1 else 0 := by
  rcases env with ⟨sendOk, gen, photoOk, editOk, deleteOk, owner, ownerOk, downloadOk⟩
  cases sendOk <;> cases gen <;> cases b <;> cases photoOk <;>
    simp [handle_generation, gatewayCalls, isGatewayCall] <;>
    split <;> simp [gatewayCalls, isGatewayCall]

/-- Memory after `handle_generation`: at the invocation's chat the last
successful gateway result of its trace wins, elsewhere (and when no
gateway call succeeded) the memory is unchanged. -/
theorem hg_mem (env : Env) (chat : Nat) (p : String) (b : Option Img) (mem : Memory)
    (c : Nat) :
    (handle_generation env chat p b mem).mem c =
      firstSome
        (if chat = c then traceGenSuccess (handle_generation env chat p b mem).trace
          else none)
        (mem c) := by
  rcases env with ⟨sendOk, gen, photoOk, editOk, deleteOk, owner, ownerOk, downloadOk⟩
  by_cases hc : chat = c
  · subst hc
    cases sendOk <;> cases gen <;> cases b <;> cases photoOk <;>
      simp [handle_generation, memInsert, traceGenSuccess, successBytesOf, firstSome,
        Except.toOption] <;>
      first
        | rfl
        | (split <;> simp [memInsert, traceGenSuccess, successBytesOf, firstSome])
  · have hc' : ¬ c = chat := fun h => hc h.symm
    cases sendOk <;> cases gen <;> cases b <;> cases photoOk <;>
      simp [handle_generation, memInsert, traceGenSuccess, successBytesOf, firstSome,
        hc, hc', Except.toOption] <;>
      first
        | rfl
        | (split <;> simp [memInsert, hc', traceGenSuccess, successBytesOf, firstSome])

/-- Memory after dispatching one event, in the same shape as `hg_mem`. -/
theorem step_mem (mem : Memory) (e : Event) (c : Nat) :
    (stepEvent mem e).mem c =
      firstSome
        (if eventChat e = c then traceGenSuccess (stepEvent mem e).trace else none)
        (mem c) := by
  cases e with
  | text env chat msg =>
      simp only [stepEvent, eventChat, text_handler]
      by_cases h0 : msg = ""
      · simp [h0, traceGenSuccess, firstSome]
      · simp only [if_neg h0]
        split
        · exact hg_mem env chat _ _ mem c
        · split
          · simp [traceGenSuccess, successBytesOf, firstSome]
          · exact hg_mem env chat _ _ mem c
  | photo env chat cap img =>
      simp only [stepEvent, eventChat, photo_handler]
      split
      · exact hg_mem env chat _ _ mem c
      · simp [traceGenSuccess, firstSome]

/-- Memory after a run of events, relative to the starting memory. -/
theorem runEvents_mem (es : List Event) (mem : Memory) (c : Nat) :
    (runEvents mem es).1 c =
      firstSome (lastSuccessFor c (runEvents mem es).2) (mem c) := by
  induction es generalizing mem with
  | nil => simp [runEvents, lastSuccessFor, firstSome]
  | cons e es ih =>
      simp only [runEvents, lastSuccessFor]
      rw [ih, step_mem, firstSome_assoc]

/-- An edit command is at least 12 characters long (the shortest
recognized prefix). -/
theorem is_edit_command_length (s : String) (h : is_edit_command s = true) :
    12 ≤ s.length := by
  have hlen : s.length = s.data.length := rfl
  simp [is_edit_command, edit_phrase_list, py_startswith] at h
  rw [hlen]
  rcases h with h | h | h
  all_goals
    have hle := h.length_le
    simp at hle
    omega

/- ----------------------------------------------------------------- -/
/- Claim theorems                                                     -/
/- ----------------------------------------------------------------- -/

/-- Claim C1, counterexample: the text "ab" has a trimmed prompt
shorter than 3 characters, yet `text_handler` dispatches it and the
gateway is invoked once (the claim requires zero gateway calls). -/
theorem C1_short_prompt_dispatched_cex :
    (py_strip "ab").length < 3 ∧
    gatewayCalls (text_handler envAllOk 1 "ab" emptyMemory).trace = 1 :=
  ⟨by decide, by decide⟩

/-- Claim C1, amended: there is no minimum-length policy.  Every
non-empty text whose trimmed prompt is shorter than 3 characters is
dispatched like any other prompt: when the placeholder send succeeds
the gateway is invoked exactly once, with no rejection. -/
theorem C1_no_min_length_gate (env : Env) (chat : Nat) (text : String) (mem : Memory)
    (hs : env.sendOk = true) (hne : text ≠ "") (hshort : (py_strip text).length < 3) :
    gatewayCalls (text_handler env chat text mem).trace = 1 := by
  have hlen : (py_lower (py_strip text)).length = (py_strip text).length := by
    show ((py_strip text).data.map pyLowerChar).length = (py_strip text).data.length
    simp
  have hed : is_edit_command (py_lower (py_strip text)) = false := by
    by_contra hcon
    have h' : is_edit_command (py_lower (py_strip text)) = true := by
      revert hcon; cases is_edit_command (py_lower (py_strip text)) <;> simp
    have := is_edit_command_length _ h'
    omega
  simp [text_handler, hne, hed, hg_calls, hs]

/-- Claim C1, witness for `C1_no_min_length_gate` at the text " hi ". -/
theorem C1_no_min_length_gate_witness :
    gatewayCalls (text_handler envAllOk 2 " hi " emptyMemory).trace = 1 :=
  C1_no_min_length_gate envAllOk 2 " hi " emptyMemory rfl (by decide) (by decide)

/-- Claim C2: when the gateway call fails (and the placeholder send and
its error edit succeed), the per-chat image memory is unchanged at
every chat, no photo delivery is attempted to the chat or the owner,
the placeholder has been edited to the error text, and the chat sees
exactly one message. -/
theorem C2_gateway_failure_frame (env : Env) (chat : Nat) (p : String) (b : Option Img)
    (mem : Memory) (e : String)
    (hs : env.sendOk = true) (hg : env.gen = Except.error e) (he : env.editOk = true) :
    (∀ c, (handle_generation env chat p b mem).mem c = mem c) ∧
    photoAttempts (handle_generation env chat p b mem).trace = 0 ∧
    finalPlaceholder (handle_generation env chat p b mem).trace = some (genFailText e) ∧
    userVisibleCount chat (handle_generation env chat p b mem).trace = 1 := by
  rcases env with ⟨sendOk, gen, photoOk, editOk, deleteOk, owner, ownerOk, downloadOk⟩
  subst hs; subst hg; subst he
  cases b <;>
    simp [handle_generation, photoAttempts, isPhotoAttempt, finalPlaceholder,
      stepPlaceholder, userVisibleCount, photosDeliveredTo, isDeliveryTo,
      List.foldl, Except.toOption]

/-- Claim C2, witness for `C2_gateway_failure_frame` at a failing
gateway environment. -/
theorem C2_gateway_failure_frame_witness :
    (∀ c, (handle_generation envGenFail 7 "кот" none emptyMemory).mem c = emptyMemory c) ∧
    photoAttempts (handle_generation envGenFail 7 "кот" none emptyMemory).trace = 0 ∧
    finalPlaceholder (handle_generation envGenFail 7 "кот" none emptyMemory).trace
      = some (genFailText "boom") ∧
    userVisibleCount 7 (handle_generation envGenFail 7 "кот" none emptyMemory).trace = 1 :=
  C2_gateway_failure_frame envGenFail 7 "кот" none emptyMemory "boom" rfl rfl rfl

/-- Claim C3, counterexample: with `ZENMUX_API_KEY` absent but
`TELEGRAM_TOKEN` and `WEBHOOK_URL` set, `main` starts up successfully —
the process does not fail at startup; the missing key only raises
later, inside `get_genai_client` at the first gateway call. -/
theorem C3_startup_ignores_key_cex :
    main_startup cfgNoKey = Except.ok () ∧
    get_genai_client cfgNoKey.zenmux_api_key none =
      Except.error "ZENMUX_API_KEY не задан" :=
  ⟨rfl, rfl⟩

/-- Claim C3, amended: startup validation never consults
`ZENMUX_API_KEY`; the absent key is detected lazily, at the first
gateway call, where `get_genai_client` raises; a cached client is
returned as-is without consulting the key (so the client is constructed
at most once per process and reused), and with a truthy key the first
call constructs and caches exactly that client. -/
theorem C3_lazy_key_check (cfg : ProcConfig) (k : Option String) (c : GenClient) :
    main_startup cfg = main_startup { cfg with zenmux_api_key := none } ∧
    (pyTruthy k = false →
      get_genai_client k none = Except.error "ZENMUX_API_KEY не задан") ∧
    get_genai_client k (some c) = Except.ok (c, some c) ∧
    (pyTruthy k = true →
      get_genai_client k none =
        Except.ok
          ({ api_key := k.getD "", vertexai := true, base_url := ZENMUX_BASE_URL },
            some { api_key := k.getD "", vertexai := true, base_url := ZENMUX_BASE_URL })) := by
  refine ⟨rfl, ?_, rfl, ?_⟩
  · intro h; simp [get_genai_client, h]
  · intro h; simp [get_genai_client, h]

/-- Claim C3, witness for `C3_lazy_key_check` at concrete
configurations. -/
theorem C3_lazy_key_check_witness :
    main_startup cfgNoKey = main_startup { cfgNoKey with zenmux_api_key := none } ∧
    get_genai_client none none = Except.error "ZENMUX_API_KEY не задан" ∧
    get_genai_client none
        (some { api_key := "k", vertexai := true, base_url := ZENMUX_BASE_URL })
      = Except.ok
          ({ api_key := "k", vertexai := true, base_url := ZENMUX_BASE_URL },
            some { api_key := "k", vertexai := true, base_url := ZENMUX_BASE_URL }) ∧
    get_genai_client (some "k") none
      = Except.ok
          ({ api_key := "k", vertexai := true, base_url := ZENMUX_BASE_URL },
            some { api_key := "k", vertexai := true, base_url := ZENMUX_BASE_URL }) :=
  ⟨(C3_lazy_key_check cfgNoKey none
      { api_key := "k", vertexai := true, base_url := ZENMUX_BASE_URL }).1,
    (C3_lazy_key_check cfgNoKey none
      { api_key := "k", vertexai := true, base_url := ZENMUX_BASE_URL }).2.1 rfl,
    (C3_lazy_key_check cfgNoKey none
      { api_key := "k", vertexai := true, base_url := ZENMUX_BASE_URL }).2.2.1,
    (C3_lazy_key_check cfgNoKey (some "k")
      { api_key := "k", vertexai := true, base_url := ZENMUX_BASE_URL }).2.2.2 (by decide)⟩

/-- Claim C4, counterexample: when sending the placeholder raises, the
exception escapes `handle_generation` (exit is `raised`, not `ok`) and
the gateway is never invoked — generation does not proceed, refuting
both "no exception escapes" and "placeholder failure is non-fatal". -/
theorem C4_placeholder_failure_fatal_cex :
    (handle_generation envSendFail 5 "кот" none emptyMemory).exit
        = RunExit.raised "send_message" ∧
    gatewayCalls (handle_generation envSendFail 5 "кот" none emptyMemory).trace = 0 :=
  ⟨by decide, by decide⟩

/-- Claim C4, amended: a placeholder-send failure is fatal — the
exception escapes the orchestrator and the gateway is never invoked;
when the placeholder send and any subsequent placeholder edit succeed,
no exception escapes the orchestrator, whatever the gateway and
delivery outcomes. -/
theorem C4_exception_policy (env : Env) (chat : Nat) (p : String) (b : Option Img)
    (mem : Memory) :
    (env.sendOk = false →
      (handle_generation env chat p b mem).exit = RunExit.raised "send_message" ∧
      gatewayCalls (handle_generation env chat p b mem).trace = 0) ∧
    (env.sendOk = true → env.editOk = true →
      (handle_generation env chat p b mem).exit = RunExit.ok) := by
  rcases env with ⟨sendOk, gen, photoOk, editOk, deleteOk, owner, ownerOk, downloadOk⟩
  constructor
  · intro h; subst h
    simp [handle_generation, gatewayCalls, isGatewayCall]
  · intro h1 h2; subst h1; subst h2
    cases gen <;> cases b <;> cases photoOk <;>
      simp [handle_generation] <;> split <;> rfl

/-- Claim C4, witness for `C4_exception_policy` at concrete
environments. -/
theorem C4_exception_policy_witness :
    ((handle_generation envSendFail 3 "ab" none emptyMemory).exit
        = RunExit.raised "send_message" ∧
      gatewayCalls (handle_generation envSendFail 3 "ab" none emptyMemory).trace = 0) ∧
    (handle_generation envAllOk 3 "ab" none emptyMemory).exit = RunExit.ok :=
  ⟨(C4_exception_policy envSendFail 3 "ab" none emptyMemory).1 rfl,
    (C4_exception_policy envAllOk 3 "ab" none emptyMemory).2 rfl rfl⟩

/-- Claim C5: starting from the empty memory, after any sequence of
inbound messages the per-chat image memory holds, for every chat,
exactly the bytes of the last successful generation for that chat —
`some` of those bytes when at least one generation for the chat
succeeded (later results overwrite earlier ones), `none` when none did
(failed or partial generations never write an entry). -/
theorem C5_memory_invariant (es : List Event) (chat : Nat) :
    (runEvents emptyMemory es).1 chat =
      lastSuccessFor chat (runEvents emptyMemory es).2 := by
  rw [runEvents_mem]
  simp [emptyMemory, firstSome_none_right]

/-- Claim C6: the classification of a trimmed, lowercased text is
exactly three-way — `editLastImage` iff an edit prefix matches and a
prior image exists, `editNoImage` iff an edit prefix matches and none
exists, `fresh` iff no prefix matches; and on `editNoImage` the handler
makes no gateway call, only informs the user, and leaves memory
unchanged (no downgrade to fresh generation). -/
theorem C6_intent_trichotomy (env : Env) (chat : Nat) (text : String) (mem : Memory) :
    (classify (py_lower (py_strip text)) (mem chat).isSome = Intent.editLastImage ↔
      is_edit_command (py_lower (py_strip text)) = true ∧ (mem chat).isSome = true) ∧
    (classify (py_lower (py_strip text)) (mem chat).isSome = Intent.editNoImage ↔
      is_edit_command (py_lower (py_strip text)) = true ∧ (mem chat).isSome = false) ∧
    (classify (py_lower (py_strip text)) (mem chat).isSome = Intent.fresh ↔
      is_edit_command (py_lower (py_strip text)) = false) ∧
    (classify (py_lower (py_strip text)) (mem chat).isSome = Intent.editNoImage →
      gatewayCalls (text_handler env chat text mem).trace = 0 ∧
      (text_handler env chat text mem).trace =
        [Effect.sendMessage chat nothingToEditText env.sendOk] ∧
      (text_handler env chat text mem).mem = mem) := by
  cases hie : is_edit_command (py_lower (py_strip text)) <;>
    cases hhl : (mem chat).isSome <;>
    simp [classify, hie, hhl]
  have hne : text ≠ "" := by
    intro h
    rw [h] at hie
    have hfalse : is_edit_command (py_lower (py_strip "")) = false := by decide
    rw [hfalse] at hie
    exact Bool.false_ne_true hie
  simp [text_handler, hne, hie, hhl, gatewayCalls, isGatewayCall]

/-- Claim C6, witness for `C6_intent_trichotomy`: an edit command in a
chat with no stored image classifies as `editNoImage`, makes no gateway
call, and only informs the user. -/
theorem C6_intent_trichotomy_witness :
    classify (py_lower (py_strip "Отредактируй: аниме")) ((emptyMemory 9).isSome)
        = Intent.editNoImage ∧
    (gatewayCalls (text_handler envAllOk 9 "Отредактируй: аниме" emptyMemory).trace = 0 ∧
      (text_handler envAllOk 9 "Отредактируй: аниме" emptyMemory).trace =
        [Effect.sendMessage 9 nothingToEditText envAllOk.sendOk] ∧
      (text_handler envAllOk 9 "Отредактируй: аниме" emptyMemory).mem = emptyMemory) :=
  ⟨by decide,
    (C6_intent_trichotomy envAllOk 9 "Отредактируй: аниме" emptyMemory).2.2.2 (by decide)⟩

/-- Claim C7: when generation succeeds but delivering the photo to the
chat fails (and the placeholder edit succeeds), the image memory has
already been updated with the new bytes for that chat, the placeholder
reports "generated but not delivered", operator delivery is never
attempted, and the handler returns normally. -/
theorem C7_delivery_failure (env : Env) (chat : Nat) (p : String) (b : Option Img)
    (mem : Memory) (img : Img)
    (hs : env.sendOk = true) (hg : env.gen = Except.ok img) (hp : env.photoOk = false)
    (he : env.editOk = true) :
    (handle_generation env chat p b mem).mem chat = some img ∧
    finalPlaceholder (handle_generation env chat p b mem).trace = some notDeliveredText ∧
    ownerAttempts (handle_generation env chat p b mem).trace = 0 ∧
    (handle_generation env chat p b mem).exit = RunExit.ok := by
  rcases env with ⟨sendOk, gen, photoOk, editOk, deleteOk, owner, ownerOk, downloadOk⟩
  subst hs; subst hg; subst hp; subst he
  cases b <;>
    simp [handle_generation, memInsert, finalPlaceholder, stepPlaceholder, List.foldl,
      ownerAttempts, isOwnerAttempt, Except.toOption]

/-- Claim C7, witness for `C7_delivery_failure` at a failing-delivery
environment. -/
theorem C7_delivery_failure_witness :
    (handle_generation envPhotoFail 4 "кот" none emptyMemory).mem 4 = some [1, 2, 3] ∧
    finalPlaceholder (handle_generation envPhotoFail 4 "кот" none emptyMemory).trace
      = some notDeliveredText ∧
    ownerAttempts (handle_generation envPhotoFail 4 "кот" none emptyMemory).trace = 0 ∧
    (handle_generation envPhotoFail 4 "кот" none emptyMemory).exit = RunExit.ok :=
  C7_delivery_failure envPhotoFail 4 "кот" none emptyMemory [1, 2, 3] rfl rfl rfl rfl

/-- Claim C8, counterexample: after a successful extraction on an empty
file system the staging file is still present — it is not removed
before the function returns. -/
theorem C8_temp_file_left_cex :
    (extract_image_from_response id "cafe" [{ inline_data := some [7] }] []).2
        = ["/tmp/zenmux_cafe.png"] ∧
    ¬ (extract_image_from_response id "cafe" [{ inline_data := some [7] }] []).2 = [] :=
  ⟨by decide, by decide⟩

/-- Claim C8, amended: the adapter is pure except for its staging file,
which leaks: every successful extraction leaves exactly one new file
`tmpPathFor hexName` on disk, and a failed extraction (no inline
payload) creates no file. -/
theorem C8_staging_file_leaks (enc : Img → Img) (hexName : String) (parts : List RPart)
    (fs : List String) :
    (∀ d, firstInline parts = some d →
      (extract_image_from_response enc hexName parts fs).2 = fs ++ [tmpPathFor hexName]) ∧
    (firstInline parts = none →
      (extract_image_from_response enc hexName parts fs).2 = fs) := by
  induction parts with
  | nil => simp [extract_image_from_response, firstInline]
  | cons p rest ih =>
      cases hp : p.inline_data with
      | some d => simp [extract_image_from_response, firstInline, hp]
      | none =>
          simp only [extract_image_from_response, firstInline, hp]
          exact ih

/-- Claim C8, witness for `C8_staging_file_leaks` at a concrete
response and file system. -/
theorem C8_staging_file_leaks_witness :
    (extract_image_from_response id "ab12" [{ inline_data := some [5] }]
        ["/tmp/old.png"]).2
      = ["/tmp/old.png", "/tmp/zenmux_ab12.png"] :=
  (C8_staging_file_leaks id "ab12" [{ inline_data := some [5] }] ["/tmp/old.png"]).1
    [5] rfl

/-- Claim C9: the adapter scans the response parts in order; it fails
with the no-image error exactly when no part carries inline image data
(equivalently, every part's `inline_data` is absent), and when some
part does, it returns the byte buffer derived from the first such
part's payload. -/
theorem C9_scan_first_inline (enc : Img → Img) (hexName : String) (parts : List RPart)
    (fs : List String) :
    ((extract_image_from_response enc hexName parts fs).1 = Except.error noImageText ↔
      firstInline parts = none) ∧
    (firstInline parts = none ↔ ∀ p ∈ parts, p.inline_data = none) ∧
    (∀ d, firstInline parts = some d →
      (extract_image_from_response enc hexName parts fs).1 = Except.ok (enc d)) := by
  induction parts with
  | nil => simp [extract_image_from_response, firstInline]
  | cons p rest ih =>
      cases hp : p.inline_data with
      | some d => simp [extract_image_from_response, firstInline, hp]
      | none =>
          obtain ⟨i1, i2, i3⟩ := ih
          have he : extract_image_from_response enc hexName (p :: rest) fs
              = extract_image_from_response enc hexName rest fs := by
            simp [extract_image_from_response, hp]
          have hf : firstInline (p :: rest) = firstInline rest := by
            simp [firstInline, hp]
          refine ⟨?_, ?_, ?_⟩
          · rw [he, hf]; exact i1
          · rw [hf]
            constructor
            · intro h q hq
              rcases List.mem_cons.1 hq with rfl | hq2
              · exact hp
              · exact (i2.1 h) q hq2
            · intro h
              exact i2.2 (fun q hq => h q (List.mem_cons_of_mem _ hq))
          · intro d hd
            rw [hf] at hd
            rw [he]
            exact i3 d hd

/-- Claim C9, witness for `C9_scan_first_inline` at concrete part
lists: a list with no inline data errors, and a list whose second part
carries the payload returns it. -/
theorem C9_scan_first_inline_witness :
    ((extract_image_from_response id "ff" [{ inline_data := none }] []).1
        = Except.error noImageText ↔ firstInline [{ inline_data := none }] = none) ∧
    (extract_image_from_response id "ff"
        [{ inline_data := none }, { inline_data := some [9] }] []).1
      = Except.ok [9] :=
  ⟨(C9_scan_first_inline id "ff" [{ inline_data := none }] []).1,
    (C9_scan_first_inline id "ff"
      [{ inline_data := none }, { inline_data := some [9] }] []).2.2 [9] rfl⟩

/-- Claim C10: for a photo message (once the download succeeds), the
orchestrator is invoked with the trimmed caption when it is non-empty
and with the fixed default art-variation prompt when the caption is
absent or trims to empty; in both cases generation is image-conditioned
on the uploaded photo's bytes (the gateway call in the trace is the
image-conditioned one carrying those bytes). -/
theorem C10_caption_prompt (env : Env) (chat : Nat) (caption : Option String) (img : Img)
    (mem : Memory) (hd : env.downloadOk = true) :
    photo_handler env chat caption img mem
      = handle_generation env chat (photoPrompt caption) (some img) mem ∧
    (py_strip (caption.getD "") ≠ "" → photoPrompt caption = py_strip (caption.getD "")) ∧
    (py_strip (caption.getD "") = "" → photoPrompt caption = DEFAULT_VARIATION_PROMPT) ∧
    (env.sendOk = true →
      Effect.gatewayImage (photoPrompt caption) img env.gen.toOption
        ∈ (photo_handler env chat caption img mem).trace) := by
  refine ⟨by simp [photo_handler, hd], ?_, ?_, ?_⟩
  · intro h; simp [photoPrompt, h]
  · intro h; simp [photoPrompt, h]
  · intro hs
    rcases env with ⟨sendOk, gen, photoOk, editOk, deleteOk, owner, ownerOk, downloadOk⟩
    cases downloadOk
    · simp at hd
    · cases sendOk
      · simp at hs
      · cases gen <;> cases photoOk <;>
          (simp [photo_handler, handle_generation, Except.toOption]
           try (split <;> simp))

/-- Claim C10, witness for `C10_caption_prompt`: a captioned photo uses
the trimmed caption, an uncaptioned one the fixed default, both
image-conditioned on the uploaded bytes. -/
theorem C10_caption_prompt_witness :
    photo_handler envAllOk 6 (some " поп-арт версия ") [8] emptyMemory
      = handle_generation envAllOk 6 (photoPrompt (some " поп-арт версия "))
          (some [8]) emptyMemory ∧
    photoPrompt (some " поп-арт версия ") = py_strip " поп-арт версия " ∧
    photoPrompt none = DEFAULT_VARIATION_PROMPT ∧
    Effect.gatewayImage (photoPrompt (some " поп-арт версия ")) [8] (some [1, 2, 3])
      ∈ (photo_handler envAllOk 6 (some " поп-арт версия ") [8] emptyMemory).trace :=
  ⟨(C10_caption_prompt envAllOk 6 (some " поп-арт версия ") [8] emptyMemory rfl).1,
    (C10_caption_prompt envAllOk 6 (some " поп-арт версия ") [8] emptyMemory rfl).2.1
      (by decide),
    (C10_caption_prompt envAllOk 6 none [8] emptyMemory rfl).2.2.1 (by decide),
    (C10_caption_prompt envAllOk 6 (some " поп-арт версия ") [8] emptyMemory rfl).2.2.2
      rfl⟩
